import Mathlib

/-!
# Verification of the xd-post connection lifecycle and retry core

Shallow embedding of the reconnection policy engine (`ReconnectionManager`),
the network state detector (`NetworkStateDetector`), the two transport
clients (`WebSocketClient`, `SSEClient`) and the connection monitor
(`ReconnectionMonitor`) of the xd-post repository, together with theorems
checking the natural-language specification against the code.

JavaScript numbers are modelled as rationals (`ℚ`); the arithmetic the
retry code performs (multiplication, `Math.pow` with small natural
exponents, `Math.min`/`Math.max`, addition) is exact on the values in
range, so the rational model coincides with the source semantics on every
input considered here.  `Math.random()` samples are modelled as an explicit
parameter `r` with `0 ≤ r < 1`.  Timers and socket handles are modelled by
explicit identifiers drawn from a freshness counter, and callback
invocations are recorded in an explicit event list.
-/

namespace XdPost

/-! ## ReconnectionManager (reconnection-manager module)

Source: `ReconnectionConfig`, `ReconnectionManager` with fields
`reconnectAttempts`, `reconnectTimer`, `isReconnecting` and the methods
`startReconnection`, `calculateReconnectDelay`, `resetReconnectionState`,
`forceReconnection`, `stopReconnection`. -/

/-- `ReconnectionConfig` from the source (callback fields omitted; the
callbacks are modelled as emitted events). -/
structure ReconnectionConfig where
  baseDelay : ℚ
  maxDelay : ℚ
  maxAttempts : ℚ
  backoffMultiplier : ℚ
  jitterRange : ℚ
deriving Repr, DecidableEq

/-- The default configuration built by the `ReconnectionManager`
constructor when no overrides are given. -/
def defaultReconnectionConfig : ReconnectionConfig :=
  { baseDelay := 1000, maxDelay := 30000, maxAttempts := 10
    backoffMultiplier := 2, jitterRange := 1000 }

/-- Mutable state of a `ReconnectionManager`: `reconnectAttempts`,
`isReconnecting`, and whether `reconnectTimer` holds a pending timer
(`timerArmed`). -/
structure RMState where
  reconnectAttempts : ℕ
  isReconnecting : Bool
  timerArmed : Bool
deriving Repr, DecidableEq

/-- Initial state of a freshly constructed `ReconnectionManager`. -/
def RMState.init : RMState :=
  { reconnectAttempts := 0, isReconnecting := false, timerArmed := false }

/-- `calculateReconnectDelay`:
`exponentialDelay = baseDelay * backoffMultiplier^(reconnectAttempts - 1)`;
`cappedDelay = min(exponentialDelay, maxDelay)`;
`jitter = (Math.random() - 0.5) * jitterRange`;
returns `max(0, cappedDelay + jitter)`.
`attempts` is the value of `this.reconnectAttempts` at call time (always
≥ 1, since the method is only called after the increment) and `r` is the
`Math.random()` sample. -/
def calculateReconnectDelay (cfg : ReconnectionConfig) (attempts : ℕ) (r : ℚ) : ℚ :=
  let exponentialDelay := cfg.baseDelay * cfg.backoffMultiplier ^ (attempts - 1)
  let cappedDelay := min exponentialDelay cfg.maxDelay
  let jitter := (r - 1/2) * cfg.jitterRange
  max 0 (cappedDelay + jitter)

/-- Result of one `startReconnection` call: the post state, whether the
`onMaxAttemptsReached` callback was invoked, and — when a retry was
scheduled — the attempt number and delay passed to `onReconnectionAttempt`
and `setTimeout`. -/
structure StartReconnectionResult where
  state : RMState
  maxReachedFired : Bool
  scheduled : Option (ℕ × ℚ)
deriving Repr, DecidableEq

/-- `startReconnection(connectCallback)`:
guard `if (isReconnecting || reconnectAttempts >= maxAttempts)`; inside
the guard `onMaxAttemptsReached` is invoked exactly when
`reconnectAttempts >= maxAttempts`, and the method returns without
scheduling.  Otherwise it sets `isReconnecting = true`, increments
`reconnectAttempts`, computes the delay, invokes `onReconnectionAttempt`
and arms `reconnectTimer`. -/
def startReconnection (cfg : ReconnectionConfig) (s : RMState) (r : ℚ) :
    StartReconnectionResult :=
  if s.isReconnecting ∨ (s.reconnectAttempts : ℚ) ≥ cfg.maxAttempts then
    { state := s
      maxReachedFired := decide ((s.reconnectAttempts : ℚ) ≥ cfg.maxAttempts)
      scheduled := none }
  else
    let attempts := s.reconnectAttempts + 1
    let delay := calculateReconnectDelay cfg attempts r
    { state := { reconnectAttempts := attempts, isReconnecting := true, timerArmed := true }
      maxReachedFired := false
      scheduled := some (attempts, delay) }

/-- The body of the timer armed by `startReconnection`: when it fires it
sets `isReconnecting = false` and invokes `connectCallback` (the callback
itself is outside this state).  The pending timer is consumed. -/
def rmTimerFire (s : RMState) : RMState :=
  { s with isReconnecting := false, timerArmed := false }

/-- `resetReconnectionState`: sets `reconnectAttempts = 0`,
`isReconnecting = false`, and clears any pending timer. -/
def resetReconnectionState (_s : RMState) : RMState :=
  RMState.init

/-- `forceReconnection(connectCallback)`: `resetReconnectionState()`
followed by `startReconnection(connectCallback)`. -/
def forceReconnection (cfg : ReconnectionConfig) (s : RMState) (r : ℚ) :
    StartReconnectionResult :=
  startReconnection cfg (resetReconnectionState s) r

/-! ## NetworkStateDetector

Source: `NetworkStateDetector` with `listeners: Array<(isOnline) => void>`
and methods `addListener` (Array.push), `removeListener`
(indexOf + splice(index, 1)) and `notifyListeners` (forEach).  Callbacks
are compared by reference in JS; they are modelled by identifiers in `ℕ`
so that reference equality becomes decidable equality. -/

/-- `addListener(callback)`: `this.listeners.push(callback)` — appends,
permitting duplicates. -/
def addListener (l : List ℕ) (cb : ℕ) : List ℕ := l ++ [cb]

/-- `removeListener(callback)`:
`const index = this.listeners.indexOf(callback);`
`if (index > -1) this.listeners.splice(index, 1);` — removes only the
first occurrence found by reference, or nothing when absent. -/
def removeListener (l : List ℕ) (cb : ℕ) : List ℕ :=
  if cb ∈ l then l.eraseIdx (l.indexOf cb) else l

/-- `notifyListeners(isOnline)`:
`this.listeners.forEach(callback => callback(isOnline))` — the list of
callback invocations made, in order. -/
def notifyListeners (l : List ℕ) (isOnline : Bool) : List (ℕ × Bool) :=
  l.map (fun cb => (cb, isOnline))

/-! ## WebSocketClient (index module)

Source: `WebSocketClient` with fields `websocket`, `config`,
`retryAttempts`, `retryTimer`, `isConnecting`, `heartbeatTimer` and the
methods `connect`, `handleRetry`, `calculateRetryDelay`, `disconnect`,
`updateSessionId`, `getReadyState`, plus the `onerror`/`onclose` handlers
installed by `setupEventHandlers`.  `setTimeout` handles are modelled by
identifiers from a freshness counter; the multiset of retry timers
actually pending in the host runtime is tracked in `armedRetryTimers`
(`clearTimeout` removes from it, and `handleRetry` appends without
clearing the previous one, exactly as the source does). -/

/-- JavaScript `x || d` on numbers: `d` when `x` is falsy (`0`),
otherwise `x`. -/
def jsOrQ (x d : ℚ) : ℚ := if x = 0 then d else x

/-- `WebSocketConfig` after constructor defaulting (`retryInterval: 3000`,
`maxRetryAttempts: 5`, `autoHandlePopup: true`, overridden by the caller's
config).  Callback fields are modelled as emitted events. -/
structure WSConfig where
  url : String
  sessionId : Option String
  retryInterval : ℚ
  maxRetryAttempts : ℚ
  autoHandlePopup : Bool
deriving Repr, DecidableEq

/-- A WebSocket handle: its identity and its `readyState`
(`CONNECTING = 0`, `OPEN = 1`, `CLOSING = 2`, `CLOSED = 3`). -/
structure WSHandle where
  sockId : ℕ
  readyState : ℕ
deriving Repr, DecidableEq

/-- The `WebSocket.CONNECTING` constant. -/
def webSocketCONNECTING : ℕ := 0

/-- The `WebSocket.CLOSED` constant. -/
def webSocketCLOSED : ℕ := 3

/-- State of a `WebSocketClient` instance together with the set of retry
timers pending in the host runtime. -/
structure WSClient where
  websocket : Option WSHandle
  config : WSConfig
  retryAttempts : ℕ
  retryTimer : Option ℕ
  isConnecting : Bool
  heartbeatTimer : Option ℕ
  armedRetryTimers : List ℕ
  nextTimerId : ℕ
  nextSockId : ℕ
deriving Repr, DecidableEq

/-- A freshly constructed `WebSocketClient`. -/
def wsFresh (cfg : WSConfig) : WSClient :=
  { websocket := none, config := cfg, retryAttempts := 0, retryTimer := none
    isConnecting := false, heartbeatTimer := none, armedRetryTimers := []
    nextTimerId := 0, nextSockId := 0 }

/-- Observable effects of the client: callback invocations, socket
operations and timer operations, in program order. -/
inductive WSEvent
  | timerCleared (id : ℕ)
  | heartbeatStopped (id : ℕ)
  | socketClosed (code : ℕ) (reason : String)
  | socketCreated (sockId : ℕ) (url : String)
  | retryScheduled (timerId : ℕ) (delay : ℚ)
  | maxRetryError
  | connectionFailedCaught
  | onErrorCallback
  | onCloseCallback
deriving Repr, DecidableEq

/-- One byte of the UTF-8 encoding of a character (code points below
`0x110000`). -/
def utf8Bytes (c : Char) : List ℕ :=
  let n := c.toNat
  if n < 0x80 then [n]
  else if n < 0x800 then [0xC0 + n / 0x40, 0x80 + n % 0x40]
  else if n < 0x10000 then
    [0xE0 + n / 0x1000, 0x80 + (n / 0x40) % 0x40, 0x80 + n % 0x40]
  else
    [0xF0 + n / 0x40000, 0x80 + (n / 0x1000) % 0x40,
      0x80 + (n / 0x40) % 0x40, 0x80 + n % 0x40]

/-- Upper-case hexadecimal digit for `n < 16`. -/
def hexDigit (n : ℕ) : Char :=
  if n < 10 then Char.ofNat (48 + n) else Char.ofNat (55 + n)

/-- `%XX` percent-encoding of one byte. -/
def percentByte (b : ℕ) : String :=
  String.singleton (Char.ofNat 37) ++ String.singleton (hexDigit (b / 16)) ++
    String.singleton (hexDigit (b % 16))

/-- Characters `encodeURIComponent` leaves unescaped:
`A–Z a–z 0–9 - _ . ! ~ * ' ( )`. -/
def isUnreservedChar (c : Char) : Bool :=
  c.isAlpha || c.isDigit ||
    c ∈ ['-', '_', '.', '!', '~', '*', '\'', '(', ')']

/-- ECMAScript `encodeURIComponent`: unreserved characters are kept,
every other character is replaced by the percent-encoding of its UTF-8
bytes. -/
def encodeURIComponent (s : String) : String :=
  s.data.foldr
    (fun c acc =>
      (if isUnreservedChar c then String.singleton c
       else ((utf8Bytes c).map percentByte).foldr (· ++ ·) "") ++ acc) ""

/-- `String.startsWith` over the underlying character lists. -/
def charsStartWith : List Char → List Char → Bool
  | _, [] => true
  | [], _ :: _ => false
  | c :: cs, p :: ps => c == p && charsStartWith cs ps

/-- Whether `s` starts with the prefix `p`. -/
def strStartsWith (s p : String) : Bool := charsStartWith s.data p.data

/-- The string `s` without its first `n` characters. -/
def strDrop (s : String) (n : ℕ) : String := ⟨s.data.drop n⟩

/-- Scheme rewriting in `connect()`: an `http://`/`https://` prefix is
replaced by `ws://`/`wss://`; other URLs pass through unchanged. -/
def normalizeScheme (url : String) : String :=
  if strStartsWith url "http://" then "ws://" ++ strDrop url 7
  else if strStartsWith url "https://" then "wss://" ++ strDrop url 8
  else url

/-- URL construction in `connect()`:
`if (this.config.sessionId) url = url + "/" + encodeURIComponent(sessionId)`
(the session id is appended as a path segment; an empty session id is
falsy and skipped), then the scheme is normalized. -/
def buildConnectUrl (cfg : WSConfig) : String :=
  normalizeScheme
    (match cfg.sessionId with
      | some sid =>
          if sid = "" then cfg.url else cfg.url ++ "/" ++ encodeURIComponent sid
      | none => cfg.url)

/-- `isConnected()`: `this.websocket?.readyState === WebSocket.OPEN`. -/
def isConnected (s : WSClient) : Bool :=
  match s.websocket with
  | some h => h.readyState == 1
  | none => false

/-- `calculateRetryDelay()`:
`baseDelay = retryInterval || 3000`; `maxDelay = 30000`;
`delay = min(baseDelay * 2^(retryAttempts-1), maxDelay)`;
`jitter = Math.random() * 1000`; returns `delay + jitter`.
`attempts` is `this.retryAttempts` at call time (≥ 1) and `r` the
`Math.random()` sample. -/
def calculateRetryDelayWS (cfg : WSConfig) (attempts : ℕ) (r : ℚ) : ℚ :=
  let baseDelay := jsOrQ cfg.retryInterval 3000
  let maxDelay : ℚ := 30000
  let delay := min (baseDelay * 2 ^ (attempts - 1)) maxDelay
  let jitter := r * 1000
  delay + jitter

/-- `handleRetry()`: when `retryAttempts >= (maxRetryAttempts || 5)`,
invokes `onError` and returns; otherwise increments `retryAttempts`,
computes the delay, and overwrites `this.retryTimer` with a fresh
`setTimeout` handle — the previously referenced timer, if any, is *not*
cleared and stays pending. -/
def handleRetry (r : ℚ) (s : WSClient) : WSClient × List WSEvent :=
  if (s.retryAttempts : ℚ) ≥ jsOrQ s.config.maxRetryAttempts 5 then
    (s, [.maxRetryError])
  else
    let s1 := { s with retryAttempts := s.retryAttempts + 1 }
    let delay := calculateRetryDelayWS s1.config s1.retryAttempts r
    ({ s1 with
        retryTimer := some s1.nextTimerId
        armedRetryTimers := s1.armedRetryTimers ++ [s1.nextTimerId]
        nextTimerId := s1.nextTimerId + 1 },
      [.retryScheduled s1.nextTimerId delay])

/-- `connect()`: no-op when `isConnecting` or the socket is `OPEN`.
Otherwise sets `isConnecting = true`, builds the URL, and constructs the
`WebSocket`.  The constructor is external: `ctorThrows` says whether
`new WebSocket(url)` throws (as it does for a missing/invalid URL).  On
throw the error is caught, `isConnecting` is reset and `handleRetry` runs;
on success a fresh handle in state `CONNECTING` is stored. -/
def connect (ctorThrows : Bool) (r : ℚ) (s : WSClient) : WSClient × List WSEvent :=
  if s.isConnecting || isConnected s then (s, [])
  else
    let s1 := { s with isConnecting := true }
    let url := buildConnectUrl s1.config
    if ctorThrows then
      let (s2, evs) := handleRetry r { s1 with isConnecting := false }
      (s2, .connectionFailedCaught :: evs)
    else
      ({ s1 with
          websocket := some ⟨s1.nextSockId, webSocketCONNECTING⟩
          nextSockId := s1.nextSockId + 1 },
        [.socketCreated s1.nextSockId url])

/-- `stopHeartbeat()`: clears `heartbeatTimer` when set. -/
def stopHeartbeat (s : WSClient) : WSClient × List WSEvent :=
  match s.heartbeatTimer with
  | some id => ({ s with heartbeatTimer := none }, [.heartbeatStopped id])
  | none => (s, [])

/-- `disconnect()`: clears the tracked retry timer (if any), stops the
heartbeat, closes the socket with code 1000, resets `isConnecting` and
`retryAttempts`. -/
def disconnect (s : WSClient) : WSClient × List WSEvent :=
  let (s1, e1) : WSClient × List WSEvent :=
    match s.retryTimer with
    | some id =>
        ({ s with
            retryTimer := none
            armedRetryTimers := s.armedRetryTimers.erase id },
          [.timerCleared id])
    | none => (s, [])
  let (s2, e2) := stopHeartbeat s1
  let (s3, e3) : WSClient × List WSEvent :=
    match s2.websocket with
    | some _ => ({ s2 with websocket := none },
        [.socketClosed 1000 "Client disconnect"])
    | none => (s2, [])
  ({ s3 with isConnecting := false, retryAttempts := 0 }, e1 ++ e2 ++ e3)

/-- The `websocket.onerror` handler: resets `isConnecting`, invokes
`onError`, then calls `handleRetry`. -/
def onErrorEvent (r : ℚ) (s : WSClient) : WSClient × List WSEvent :=
  let (s1, evs) := handleRetry r { s with isConnecting := false }
  (s1, .onErrorCallback :: evs)

/-- The `websocket.onclose` handler: resets `isConnecting`, stops the
heartbeat, invokes `onClose`, and calls `handleRetry` unless the close was
clean. -/
def onCloseEvent (wasClean : Bool) (r : ℚ) (s : WSClient) : WSClient × List WSEvent :=
  let (s1, e1) := stopHeartbeat { s with isConnecting := false }
  if wasClean then (s1, e1 ++ [.onCloseCallback])
  else
    let (s2, e2) := handleRetry r s1
    (s2, e1 ++ [.onCloseCallback] ++ e2)

/-- Firing of a pending retry timer: its callback runs `this.connect()`.
Only timers still pending in the runtime can fire; the tracked
`retryTimer` reference is left as is (the source callback does not null
it). -/
def retryTimerFire (id : ℕ) (ctorThrows : Bool) (r : ℚ) (s : WSClient) :
    WSClient × List WSEvent :=
  if id ∈ s.armedRetryTimers then
    connect ctorThrows r { s with armedRetryTimers := s.armedRetryTimers.erase id }
  else (s, [])

/-- `updateSessionId(sessionId)`: mutates `config.sessionId`; when
connected, runs `disconnect()` then `connect()`. -/
def updateSessionId (sid : String) (ctorThrows : Bool) (r : ℚ) (s : WSClient) :
    WSClient × List WSEvent :=
  let s0 := { s with config := { s.config with sessionId := some sid } }
  if isConnected s0 then
    let (s1, e1) := disconnect s0
    let (s2, e2) := connect ctorThrows r s1
    (s2, e1 ++ e2)
  else (s0, [])

/-- `getReadyState()`: `this.websocket?.readyState || WebSocket.CLOSED` —
when there is no socket the optional chain yields `undefined`, and when
`readyState` is `CONNECTING = 0` the value is falsy; in both cases the
`||` yields `WebSocket.CLOSED = 3`. -/
def getReadyState (s : WSClient) : ℕ :=
  match s.websocket with
  | none => webSocketCLOSED
  | some h => if h.readyState = 0 then webSocketCLOSED else h.readyState

/-! ## SSEClient readyState (sse-client module)

Only the part of `SSEClient` that the claims need beyond the shared retry
shape: `getReadyState()` over the `EventSource` handle
(`CONNECTING = 0`, `OPEN = 1`, `CLOSED = 2`). -/

/-- The `EventSource.CONNECTING` constant. -/
def eventSourceCONNECTING : ℕ := 0

/-- The `EventSource.CLOSED` constant. -/
def eventSourceCLOSED : ℕ := 2

/-- The `eventSource` handle slot of an `SSEClient`. -/
structure SSEClientConn where
  eventSource : Option WSHandle
deriving Repr, DecidableEq

/-- `SSEClient.getReadyState()`:
`this.eventSource?.readyState || EventSource.CLOSED` — `undefined` (no
source) and the falsy `CONNECTING = 0` both yield `CLOSED = 2`. -/
def sseGetReadyState (s : SSEClientConn) : ℕ :=
  match s.eventSource with
  | none => eventSourceCLOSED
  | some h => if h.readyState = 0 then eventSourceCLOSED else h.readyState

/-! ## SSEClient default-message routing

Source: the `onmessage` handler installed by `setupEventHandlers`
(`const data = JSON.parse(JSON.parse(event.data)); this.handlePopupMessage(data);`
`this.config.onMessage?.(data);` inside a `try`/`catch` that logs), and
`handlePopupMessage` (`if (this.config.autoHandlePopup) showPopup(`
`popupMessage.strategy.content, popupMessage.options)` followed by a log of
`popupMessage.payload.title`).  JSON values are modelled by `JValue`;
JavaScript property access (`undefined` results, `TypeError` on `null` /
`undefined` bases) is modelled by `getProp`. -/

/-- A parsed JSON value. -/
inductive JValue
  | null
  | bool (b : Bool)
  | num (q : ℚ)
  | str (s : String)
  | arr (elems : List JValue)
  | obj (fields : List (String × JValue))

/-- Property lookup in a parsed JSON object (keys are distinct after
`JSON.parse`). -/
def lookupField : List (String × JValue) → String → Option JValue
  | [], _ => none
  | (k, v) :: rest, key => if k = key then some v else lookupField rest key

/-- JavaScript property access `base[key]`: a field (or `undefined`,
modelled `none`) on objects, a `TypeError` on `null`, and `undefined` on
the remaining primitives and arrays for the keys used here. -/
def getProp : JValue → String → Except Unit (Option JValue)
  | .obj fs, k => .ok (lookupField fs k)
  | .null, _ => .error ()
  | _, _ => .ok none

/-- Whether the trailing `console.log(..., popupMessage.payload.title)`
throws: `data.payload` missing, `undefined` or `null` makes the `.title`
access a `TypeError`. -/
def payloadTitleThrows (data : JValue) : Bool :=
  match getProp data "payload" with
  | .error _ => true
  | .ok none => true
  | .ok (some p) =>
    match getProp p "title" with
    | .error _ => true
    | .ok _ => false

/-- Result of `handlePopupMessage(data)`: the renderer invocation
(`showPopup(strategy.content, options)`) if one was made, and whether an
exception escaped the method. -/
structure HandlePopupResult where
  dispatched : Option (JValue × Option JValue)
  threw : Bool

/-- `handlePopupMessage(data)`: when `autoHandlePopup` is set, evaluates
`popupMessage.strategy.content` and `popupMessage.options` and calls
`showPopup` — with *no* check of `data.type`.  `showPopup` throws on a
`null`/`undefined` payload (destructuring), otherwise the renderer is
invoked; the following log line throws when `data.payload` is absent, but
only after the renderer call was already made. -/
def handlePopupMessage (auto : Bool) (data : JValue) : HandlePopupResult :=
  if auto then
    match getProp data "strategy" with
    | .error _ => ⟨none, true⟩
    | .ok none => ⟨none, true⟩
    | .ok (some sv) =>
      match getProp sv "content" with
      | .error _ => ⟨none, true⟩
      | .ok contentOpt =>
        match getProp data "options" with
        | .error _ => ⟨none, true⟩
        | .ok optsOpt =>
          match contentOpt with
          | none => ⟨none, true⟩
          | some .null => ⟨none, true⟩
          | some content => ⟨some (content, optsOpt), payloadTitleThrows data⟩
  else ⟨none, false⟩

/-- Observable outcome of one `onmessage` invocation: the renderer call
made (if any), whether the external `onMessage` callback ran, and whether
the `catch` branch logged an error. -/
structure OnMessageResult where
  rendererCall : Option (JValue × Option JValue)
  onMessageCalled : Bool
  errorLogged : Bool

/-- The default (unnamed) message handler
`onmessage = (event) => { try { const data = JSON.parse(JSON.parse(event.data));`
`this.handlePopupMessage(data); this.config.onMessage?.(data); } catch ... }`.
`parsed` is the result of the double `JSON.parse` (`none` when either
parse throws).  Parse failures and exceptions from `handlePopupMessage`
land in the `catch`, which logs and drops. -/
def onDefaultMessage (auto : Bool) (parsed : Option JValue) : OnMessageResult :=
  match parsed with
  | none => ⟨none, false, true⟩
  | some data =>
    let h := handlePopupMessage auto data
    if h.threw then ⟨h.dispatched, false, true⟩ else ⟨h.dispatched, true, false⟩

/-! ## ReconnectionMonitor (sse-client module, monitor part)

Source: `ReconnectionMonitor` with `metrics: ConnectionMetrics`,
`connectionHistory: Array<...>`, `startTime`, and the methods
`recordConnectionEvent`, `updateMetrics`, `getMetrics`
(`return { ...this.metrics }`) and `getConnectionHistory`
(`return [...this.connectionHistory]`).  Because the claim is about object
aliasing, the two JavaScript objects are placed in explicit heaps indexed
by references; the spread copies allocate fresh references. -/

/-- Event kinds recorded in the connection history. -/
inductive EvKind
  | connect
  | disconnect
  | reconnect
deriving Repr, DecidableEq

/-- One entry of `connectionHistory`. -/
structure HistEvent where
  timestamp : ℚ
  kind : EvKind
  success : Bool
  duration : Option ℚ
deriving Repr, DecidableEq

/-- `ConnectionMetrics` from the source. -/
structure ConnectionMetrics where
  totalConnections : ℕ
  successfulConnections : ℕ
  failedConnections : ℕ
  totalReconnectionAttempts : ℕ
  averageReconnectionTime : ℚ
  lastConnectionDuration : Option ℚ
  uptime : ℚ
deriving Repr, DecidableEq

/-- JavaScript truthiness of `e.duration`: present and nonzero. -/
def durTruthy : Option ℚ → Bool
  | none => false
  | some q => q != 0

/-- `updateMetrics()`: recomputes `uptime` and the connect counters from
the history; recomputes `averageReconnectionTime` only when there are
reconnect events with truthy durations (`e.duration` filter); sets
`lastConnectionDuration` from the last successful connect event
(`duration || null`). -/
def updateMetrics (now startTime : ℚ) (hist : List HistEvent)
    (m : ConnectionMetrics) : ConnectionMetrics :=
  let m1 := { m with
    uptime := now - startTime
    totalConnections := (hist.filter (fun e => e.kind == .connect)).length
    successfulConnections :=
      (hist.filter (fun e => e.kind == .connect && e.success)).length
    failedConnections :=
      (hist.filter (fun e => e.kind == .connect && !e.success)).length }
  let reconnectEvents := hist.filter (fun e => e.kind == .reconnect && durTruthy e.duration)
  let m2 :=
    if reconnectEvents.length > 0 then
      { m1 with averageReconnectionTime :=
          ((reconnectEvents.map (fun e => e.duration.getD 0)).sum : ℚ) /
            (reconnectEvents.length : ℚ) }
    else m1
  match (hist.filter (fun e => e.kind == .connect && e.success)).getLast? with
  | some e => { m2 with
      lastConnectionDuration := if durTruthy e.duration then e.duration else none }
  | none => m2

/-- Heap-indexed state of a `ReconnectionMonitor`: the metrics object and
the history array live at references `metricsRef`/`historyRef` in their
heaps; `nextMetricsRef`/`nextHistoryRef` are the allocation frontiers. -/
structure MonitorWorld where
  metricsHeap : ℕ → ConnectionMetrics
  historyHeap : ℕ → List HistEvent
  nextMetricsRef : ℕ
  nextHistoryRef : ℕ
  metricsRef : ℕ
  historyRef : ℕ
  startTime : ℚ

/-- The monitor-internal observable state: the metrics object and history
array the monitor itself references. -/
def monitorInternals (w : MonitorWorld) : ConnectionMetrics × List HistEvent :=
  (w.metricsHeap w.metricsRef, w.historyHeap w.historyRef)

/-- The in-place `this.updateMetrics()` call: rewrites the metrics object
at `metricsRef` from the current history. -/
def updateMetricsInPlace (now : ℚ) (w : MonitorWorld) : MonitorWorld :=
  let newM := updateMetrics now w.startTime (w.historyHeap w.historyRef)
    (w.metricsHeap w.metricsRef)
  { w with metricsHeap := fun n => if n = w.metricsRef then newM else w.metricsHeap n }

/-- `getMetrics()`: `this.updateMetrics(); return { ...this.metrics };` —
the spread allocates a fresh object (a fresh reference) holding a copy of
the internal metrics, and that reference is what the caller receives. -/
def getMetrics (now : ℚ) (w : MonitorWorld) : MonitorWorld × ℕ :=
  let w1 := updateMetricsInPlace now w
  let r := w1.nextMetricsRef
  ({ w1 with
      metricsHeap := fun n => if n = r then w1.metricsHeap w1.metricsRef else w1.metricsHeap n
      nextMetricsRef := r + 1 }, r)

/-- `getConnectionHistory()`: `return [...this.connectionHistory];` — a
fresh array copy at a fresh reference. -/
def getConnectionHistory (w : MonitorWorld) : MonitorWorld × ℕ :=
  let r := w.nextHistoryRef
  ({ w with
      historyHeap := fun n => if n = r then w.historyHeap w.historyRef else w.historyHeap n
      nextHistoryRef := r + 1 }, r)

/-- A caller overwriting the metrics object it received (mutation of the
returned snapshot). -/
def writeMetricsAt (ref : ℕ) (m : ConnectionMetrics) (w : MonitorWorld) : MonitorWorld :=
  { w with metricsHeap := fun n => if n = ref then m else w.metricsHeap n }

/-- A caller overwriting the history array it received. -/
def writeHistoryAt (ref : ℕ) (h : List HistEvent) (w : MonitorWorld) : MonitorWorld :=
  { w with historyHeap := fun n => if n = ref then h else w.historyHeap n }

/-- `recordConnectionEvent(type, success, duration)`: pushes the event
onto the internal history and recomputes the metrics in place. -/
def recordConnectionEvent (now : ℚ) (kind : EvKind) (success : Bool)
    (duration : Option ℚ) (w : MonitorWorld) : MonitorWorld :=
  let ev : HistEvent := ⟨now, kind, success, duration⟩
  let w1 := { w with
    historyHeap := fun n =>
      if n = w.historyRef then w.historyHeap w.historyRef ++ [ev]
      else w.historyHeap n }
  updateMetricsInPlace now w1

/-- The socket-lifecycle events among the client's observable effects:
closes of the underlying connection and connection attempts. -/
def isSocketOp : WSEvent → Bool
  | .socketClosed _ _ => true
  | .socketCreated _ _ => true
  | _ => false

/-! ## Concrete runs used to settle individual claims -/

/-- A plain WebSocket client configuration. -/
def wsDemoConfig : WSConfig :=
  { url := "http://h/ws", sessionId := none, retryInterval := 3000
    maxRetryAttempts := 5, autoHandlePopup := true }

/-- A configuration whose `url` is missing (empty), so that
`new WebSocket(url)` throws. -/
def wsEmptyUrlConfig : WSConfig :=
  { url := "", sessionId := none, retryInterval := 3000
    maxRetryAttempts := 5, autoHandlePopup := true }

/-- C6 run, step 1: first `connect()` — socket 0 is created. -/
def c6Step1 : WSClient × List WSEvent := connect false 0 (wsFresh wsDemoConfig)

/-- C6 run, step 2: the connection attempt fails; `onerror` fires and
`handleRetry` arms retry timer 0. -/
def c6Step2 : WSClient × List WSEvent := onErrorEvent 0 c6Step1.1

/-- C6 run, step 3: the browser then fires `onclose` (`wasClean = false`)
for the same failed attempt; `handleRetry` runs again and overwrites the
timer reference with timer 1 — timer 0 stays pending. -/
def c6Step3 : WSClient × List WSEvent := onCloseEvent false 0 c6Step2.1

/-- C6 run, step 4: the caller invokes `disconnect()` — only the tracked
timer 1 is cleared. -/
def c6Step4 : WSClient × List WSEvent := disconnect c6Step3.1

/-- C6 run, step 5: the caller immediately invokes `connect()` — socket 1
is created; timer 0 from the previous cycle is still pending. -/
def c6Step5 : WSClient × List WSEvent := connect false 0 c6Step4.1

/-- C6 run, step 6: the new attempt fails with `onerror`. -/
def c6Step6 : WSClient × List WSEvent := onErrorEvent 0 c6Step5.1

/-- C6 run, step 7: the stale timer 0 from the pre-disconnect cycle fires
and its callback runs `connect()`, creating socket 2. -/
def c6Step7 : WSClient × List WSEvent := retryTimerFire 0 false 0 c6Step6.1

/-- An `Open` WebSocket client used for the C7 witness. -/
def wsOpenDemo : WSClient :=
  { websocket := some ⟨0, 1⟩, config := wsDemoConfig, retryAttempts := 0
    retryTimer := none, isConnecting := false, heartbeatTimer := some 9
    armedRetryTimers := [], nextTimerId := 10, nextSockId := 1 }

/-- A default-channel message whose discriminator is `"notice"`, not
`"popup"`, but which carries a `strategy.content`. -/
def c4NonPopupMessage : JValue :=
  .obj [("type", .str "notice"),
        ("payload", .obj [("title", .str "T")]),
        ("strategy", .obj [("content",
          .obj [("title", .str "T"), ("body", .str "B")])])]

/-- The metrics object a fresh `ReconnectionMonitor` constructs. -/
def initialConnectionMetrics : ConnectionMetrics :=
  { totalConnections := 0, successfulConnections := 0, failedConnections := 0
    totalReconnectionAttempts := 0, averageReconnectionTime := 0
    lastConnectionDuration := none, uptime := 0 }

/-- A concrete monitor world for the C9 witness. -/
def demoMonitorWorld : MonitorWorld :=
  { metricsHeap := fun _ => initialConnectionMetrics
    historyHeap := fun _ => []
    nextMetricsRef := 1, nextHistoryRef := 1
    metricsRef := 0, historyRef := 0, startTime := 0 }

/-! # Theorems -/

/-! ## C1: bounds of the computed retry delay -/

/-- C1 (counterexample).  The claim asserts the bound
`delay ≤ maxDelay + jitterRange/2` for every configuration satisfying the
`RetryConfig` invariant (`baseDelay > 0`, `maxDelay ≥ baseDelay`,
`maxAttempts ≥ 0`), every `attemptCount ∈ [1, maxAttempts]` and every
jitter sample drawn by the implementation
(`jitter = (Math.random() - 0.5) * jitterRange`, `Math.random() ∈ [0,1)`).
The invariant does not constrain `jitterRange`: the configuration
`{baseDelay := 1000, maxDelay := 1000, maxAttempts := 1,`
`backoffMultiplier := 2, jitterRange := -2000}` satisfies it, yet at
`attemptCount = 1` with random sample `0` the computed delay is `2000`
while `maxDelay + jitterRange/2 = 0`, violating the claimed interval. -/
theorem calculateReconnectDelay_bound_fails_on_negative_jitterRange :
    (0 < (1000 : ℚ) ∧ (1000 : ℚ) ≤ 1000 ∧ (0 : ℚ) ≤ 1 ∧
      1 ≤ 1 ∧ ((1 : ℕ) : ℚ) ≤ 1 ∧ (0 : ℚ) ≤ 0 ∧ (0 : ℚ) < 1) ∧
    calculateReconnectDelay ⟨1000, 1000, 1, 2, -2000⟩ 1 0 = 2000 ∧
    ¬ calculateReconnectDelay ⟨1000, 1000, 1, 2, -2000⟩ 1 0 ≤
        (1000 : ℚ) + (-2000 : ℚ) / 2 := by
  refine ⟨by norm_num, ?_, ?_⟩ <;>
    · simp only [calculateReconnectDelay]
      norm_num

/-- C1 (amended).  For every configuration satisfying the `RetryConfig`
invariant and additionally `jitterRange ≥ 0`, every
`attemptCount ∈ [1, maxAttempts]` and every jitter sample drawn by the
implementation (random sample `r ∈ [0,1)`), the delay computed by
`calculateReconnectDelay` lies in `[0, maxDelay + jitterRange/2]`. -/
theorem calculateReconnectDelay_bounds (cfg : ReconnectionConfig)
    (attempts : ℕ) (r : ℚ)
    (hbase : 0 < cfg.baseDelay) (hmax : cfg.baseDelay ≤ cfg.maxDelay)
    (hatt : 0 ≤ cfg.maxAttempts) (hjit : 0 ≤ cfg.jitterRange)
    (h1 : 1 ≤ attempts) (h2 : (attempts : ℚ) ≤ cfg.maxAttempts)
    (hr0 : 0 ≤ r) (hr1 : r < 1) :
    0 ≤ calculateReconnectDelay cfg attempts r ∧
    calculateReconnectDelay cfg attempts r ≤ cfg.maxDelay + cfg.jitterRange / 2 := by
  unfold calculateReconnectDelay
  refine ⟨le_max_left 0 _, max_le ?_ ?_⟩
  · have := lt_of_lt_of_le hbase hmax
    linarith
  · have hcap : min (cfg.baseDelay * cfg.backoffMultiplier ^ (attempts - 1)) cfg.maxDelay ≤
        cfg.maxDelay := min_le_right _ _
    have hj : (r - 1/2) * cfg.jitterRange ≤ (1/2) * cfg.jitterRange := by
      apply mul_le_mul_of_nonneg_right _ hjit
      linarith
    linarith

/-- C1 witness: the amended bound applied to the default configuration at
`attemptCount = 1` with random sample `0`. -/
theorem calculateReconnectDelay_bounds_witness :
    0 ≤ calculateReconnectDelay defaultReconnectionConfig 1 0 ∧
    calculateReconnectDelay defaultReconnectionConfig 1 0 ≤
      defaultReconnectionConfig.maxDelay + defaultReconnectionConfig.jitterRange / 2 :=
  calculateReconnectDelay_bounds defaultReconnectionConfig 1 0
    (by norm_num [defaultReconnectionConfig]) (by norm_num [defaultReconnectionConfig])
    (by norm_num [defaultReconnectionConfig]) (by norm_num [defaultReconnectionConfig])
    (by norm_num) (by norm_num [defaultReconnectionConfig]) (by norm_num) (by norm_num)

/-! ## C2: the concrete 1000/2000/4000 scenario -/

/-- C2.  With configuration `{baseDelay := 1000, maxDelay := 30000,`
`backoffMultiplier := 2, maxAttempts := 3, jitterRange := 0}`, the first,
second and third retry schedulings compute delays of exactly 1000, 2000
and 4000 ms (for arbitrary random samples, since the jitter range is 0),
and a fourth `startReconnection` call fires `onMaxAttemptsReached` and
does not arm a timer. -/
theorem retry_scenario_delays_1000_2000_4000 (r₁ r₂ r₃ r₄ : ℚ) :
    (startReconnection ⟨1000, 30000, 3, 2, 0⟩ RMState.init r₁).scheduled =
      some (1, 1000) ∧
    (startReconnection ⟨1000, 30000, 3, 2, 0⟩
      (rmTimerFire (startReconnection ⟨1000, 30000, 3, 2, 0⟩
        RMState.init r₁).state) r₂).scheduled = some (2, 2000) ∧
    (startReconnection ⟨1000, 30000, 3, 2, 0⟩
      (rmTimerFire (startReconnection ⟨1000, 30000, 3, 2, 0⟩
        (rmTimerFire (startReconnection ⟨1000, 30000, 3, 2, 0⟩
          RMState.init r₁).state) r₂).state) r₃).scheduled = some (3, 4000) ∧
    (startReconnection ⟨1000, 30000, 3, 2, 0⟩
      (rmTimerFire (startReconnection ⟨1000, 30000, 3, 2, 0⟩
        (rmTimerFire (startReconnection ⟨1000, 30000, 3, 2, 0⟩
          (rmTimerFire (startReconnection ⟨1000, 30000, 3, 2, 0⟩
            RMState.init r₁).state) r₂).state) r₃).state) r₄).maxReachedFired =
      true ∧
    (startReconnection ⟨1000, 30000, 3, 2, 0⟩
      (rmTimerFire (startReconnection ⟨1000, 30000, 3, 2, 0⟩
        (rmTimerFire (startReconnection ⟨1000, 30000, 3, 2, 0⟩
          (rmTimerFire (startReconnection ⟨1000, 30000, 3, 2, 0⟩
            RMState.init r₁).state) r₂).state) r₃).state) r₄).scheduled =
      none := by
  norm_num [startReconnection, calculateReconnectDelay, rmTimerFire, RMState.init]

/-! ## C3: behaviour after retry exhaustion -/

/-- C3 (counterexample).  With `maxAttempts = 1`, after the single allowed
attempt is used up, the next `startReconnection` call fires
`onMaxAttemptsReached` — and the call after that fires it *again*,
contradicting the claim that subsequent schedule calls (before any reset)
do not fire it a second time. -/
theorem onMaxAttemptsReached_fires_again_on_every_exhausted_call :
    (startReconnection ⟨1000, 30000, 1, 2, 0⟩
      (rmTimerFire (startReconnection ⟨1000, 30000, 1, 2, 0⟩
        RMState.init 0).state) 0).maxReachedFired = true ∧
    (startReconnection ⟨1000, 30000, 1, 2, 0⟩
      (startReconnection ⟨1000, 30000, 1, 2, 0⟩
        (rmTimerFire (startReconnection ⟨1000, 30000, 1, 2, 0⟩
          RMState.init 0).state) 0).state 0).maxReachedFired = true := by
  norm_num [startReconnection, calculateReconnectDelay, rmTimerFire, RMState.init]

/-- C3 (amended).  Once `reconnectAttempts ≥ maxAttempts`, *every*
`startReconnection` call fires `onMaxAttemptsReached` (once per call),
arms no timer, and leaves the state unchanged — so no retry timer is armed
until `resetReconnectionState` (run by `forceReconnection` and by the
manual reconnect paths) resets the attempt counter to 0. -/
theorem exhausted_startReconnection_fires_and_never_arms
    (cfg : ReconnectionConfig) (s : RMState) (r : ℚ)
    (h : (s.reconnectAttempts : ℚ) ≥ cfg.maxAttempts) :
    startReconnection cfg s r =
      { state := s, maxReachedFired := true, scheduled := none } ∧
    (resetReconnectionState s).reconnectAttempts = 0 := by
  constructor
  · simp only [startReconnection]
    rw [if_pos (Or.inr h)]
    simp [h]
  · rfl

/-- C3 witness: the amended exhaustion behaviour at the concrete exhausted
state reached in the `maxAttempts = 1` scenario. -/
theorem exhausted_startReconnection_fires_and_never_arms_witness :
    startReconnection ⟨1000, 30000, 1, 2, 0⟩
        ⟨1, false, false⟩ 0 =
      { state := ⟨1, false, false⟩, maxReachedFired := true, scheduled := none } ∧
    (resetReconnectionState ⟨1, false, false⟩).reconnectAttempts = 0 :=
  exhausted_startReconnection_fires_and_never_arms ⟨1000, 30000, 1, 2, 0⟩
    ⟨1, false, false⟩ 0 (by norm_num)
/-! ## C10: duplicate listener registration semantics -/

/-- C10.  `addListener` permits duplicate registrations (registering the
same callback twice adds two occurrences), `removeListener` removes only
the first matching occurrence by reference (one occurrence remains), and a
callback registered twice and removed once is still invoked by
`notifyListeners` on every subsequent online/offline transition. -/
theorem duplicate_listener_notified_after_single_removal
    (l : List ℕ) (cb : ℕ) (b : Bool) :
    (addListener (addListener l cb) cb).count cb = l.count cb + 2 ∧
    (removeListener (addListener (addListener l cb) cb) cb).count cb =
      l.count cb + 1 ∧
    (cb, b) ∈ notifyListeners (removeListener (addListener (addListener l cb) cb) cb) b := by
  have hadd : (addListener (addListener l cb) cb).count cb = l.count cb + 2 := by
    simp [addListener]
  have hmem : cb ∈ addListener (addListener l cb) cb := by
    simp [addListener]
  have hrem : removeListener (addListener (addListener l cb) cb) cb =
      (addListener (addListener l cb) cb).erase cb := by
    rw [removeListener, if_pos hmem, List.eraseIdx_indexOf_eq_erase]
  have hcount : (removeListener (addListener (addListener l cb) cb) cb).count cb =
      l.count cb + 1 := by
    rw [hrem, List.count_erase_self, hadd]
    omega
  refine ⟨hadd, hcount, ?_⟩
  have : cb ∈ removeListener (addListener (addListener l cb) cb) cb := by
    rw [← List.count_pos_iff, hcount]
    omega
  exact List.mem_map_of_mem _ this

/-! ## C4: routing in the stream client's default message handler -/

/-- C4 (counterexample).  A successfully double-parsed default-channel
payload whose `type` discriminator is `"notice"` (not `"popup"`) but which
carries a `strategy.content` is dispatched to the renderer anyway: the
`onmessage` handler calls `handlePopupMessage` unconditionally and neither
of them consults the discriminator (the discriminator-checking
`handleMessage` method is never called). -/
theorem nonpopup_discriminator_still_dispatched_to_renderer :
    getProp c4NonPopupMessage "type" = .ok (some (.str "notice")) ∧
    (onDefaultMessage true (some c4NonPopupMessage)).rendererCall =
      some (.obj [("title", .str "T"), ("body", .str "B")], none) ∧
    (onDefaultMessage true (some c4NonPopupMessage)).errorLogged = false :=
  ⟨rfl, rfl, rfl⟩

/-- C4 (amended).  The default message handler routes every successfully
parsed payload to the popup handler without consulting the `type`
discriminator: with `autoHandlePopup` enabled, a payload with any
discriminator value `t` and a non-null `strategy.content` is dispatched to
the renderer with that content; a payload is logged and dropped only when
the double `JSON.parse` fails or the dispatch path throws (e.g. when
`strategy` is absent), not because its discriminator differs from
`"popup"`. -/
theorem default_handler_ignores_discriminator (t : String) (content : JValue)
    (hc : content ≠ JValue.null) :
    (onDefaultMessage true (some (JValue.obj
        [("type", JValue.str t),
         ("strategy", JValue.obj [("content", content)])]))).rendererCall =
      some (content, none) ∧
    (onDefaultMessage true none).rendererCall = none ∧
    (onDefaultMessage true none).errorLogged = true ∧
    (onDefaultMessage true (some (JValue.obj [("type", JValue.str t)]))).rendererCall =
      none ∧
    (onDefaultMessage true (some (JValue.obj [("type", JValue.str t)]))).errorLogged =
      true := by
  refine ⟨?_, rfl, rfl, rfl, rfl⟩
  cases content with
  | null => exact absurd rfl hc
  | bool b => rfl
  | num q => rfl
  | str s => rfl
  | arr xs => rfl
  | obj fs => rfl

/-- C4 witness: the amended routing behaviour at the concrete
discriminator `"notice"` and content `{}`. -/
theorem default_handler_ignores_discriminator_witness :
    (onDefaultMessage true (some (JValue.obj
        [("type", JValue.str "notice"),
         ("strategy", JValue.obj [("content", JValue.obj [])])]))).rendererCall =
      some (JValue.obj [], none) ∧
    (onDefaultMessage true none).rendererCall = none ∧
    (onDefaultMessage true none).errorLogged = true ∧
    (onDefaultMessage true (some (JValue.obj
        [("type", JValue.str "notice")]))).rendererCall = none ∧
    (onDefaultMessage true (some (JValue.obj
        [("type", JValue.str "notice")]))).errorLogged = true :=
  default_handler_ignores_discriminator "notice" (JValue.obj [])
    (fun h => JValue.noConfusion h)

/-! ## C5: connect() with a missing URL -/

/-- C5 (counterexample).  On a client whose configured URL is missing
(empty, so the `WebSocket` constructor throws), `connect()` does *not*
surface the error synchronously: the `catch` block logs the failure and
converts it into a retry cycle — `handleRetry` increments the attempt
counter and arms retry timer 0 with the base delay of 3000 ms, and
`connect()` returns normally. -/
theorem connect_missing_url_swallowed_into_retry_cycle :
    (connect true 0 (wsFresh wsEmptyUrlConfig)).2 =
      [WSEvent.connectionFailedCaught, WSEvent.retryScheduled 0 3000] ∧
    (connect true 0 (wsFresh wsEmptyUrlConfig)).1.retryTimer = some 0 ∧
    (connect true 0 (wsFresh wsEmptyUrlConfig)).1.retryAttempts = 1 := by
  refine ⟨?_, ?_, ?_⟩ <;>
    norm_num [connect, wsFresh, wsEmptyUrlConfig, isConnected, handleRetry,
      calculateRetryDelayWS, jsOrQ, min_def]

/-- C5 (amended).  When the connection constructor throws at `connect()`
(as for a missing/invalid URL), the error is caught inside `connect()`:
the caller sees a normal return, and the failure is converted into a retry
cycle — the attempt counter becomes 1 and a retry timer is armed with the
computed backoff delay, after the logged catch. -/
theorem connect_ctor_throw_caught_and_retried (cfg : WSConfig) (r : ℚ)
    (hmax : (0 : ℚ) < jsOrQ cfg.maxRetryAttempts 5) :
    (connect true r (wsFresh cfg)).1.retryTimer = some 0 ∧
    (connect true r (wsFresh cfg)).1.retryAttempts = 1 ∧
    (connect true r (wsFresh cfg)).2 =
      [WSEvent.connectionFailedCaught,
       WSEvent.retryScheduled 0 (calculateRetryDelayWS cfg 1 r)] := by
  have hno : ¬ (jsOrQ cfg.maxRetryAttempts 5 ≤ 0) := not_le.mpr hmax
  simp [connect, wsFresh, isConnected, handleRetry, hno, calculateRetryDelayWS]

/-- C5 witness: the caught-and-retried behaviour at the concrete empty-URL
configuration with random sample 0. -/
theorem connect_ctor_throw_caught_and_retried_witness :
    (connect true 0 (wsFresh wsEmptyUrlConfig)).1.retryTimer = some 0 ∧
    (connect true 0 (wsFresh wsEmptyUrlConfig)).1.retryAttempts = 1 ∧
    (connect true 0 (wsFresh wsEmptyUrlConfig)).2 =
      [WSEvent.connectionFailedCaught,
       WSEvent.retryScheduled 0 (calculateRetryDelayWS wsEmptyUrlConfig 1 0)] :=
  connect_ctor_throw_caught_and_retried wsEmptyUrlConfig 0
    (by norm_num [wsEmptyUrlConfig, jsOrQ])

/-! ## C8: getReadyState on a CONNECTING handle -/

/-- C8.  For both transport clients, when the underlying handle's
`readyState` is `CONNECTING` (numeric value 0), `getReadyState()` returns
the `CLOSED` constant instead: `readyState || CLOSED` coerces the falsy 0
to the default, so a polling caller sees `CLOSED` (3 for WebSocket, 2 for
EventSource) and cannot distinguish a connecting client from a closed
one. -/
theorem getReadyState_connecting_coerced_to_closed
    (s : WSClient) (h : WSHandle) (t : SSEClientConn) (g : WSHandle)
    (hs : s.websocket = some h) (hh : h.readyState = webSocketCONNECTING)
    (ht : t.eventSource = some g) (hg : g.readyState = eventSourceCONNECTING) :
    getReadyState s = webSocketCLOSED ∧
    sseGetReadyState t = eventSourceCLOSED ∧
    webSocketCLOSED ≠ webSocketCONNECTING ∧
    eventSourceCLOSED ≠ eventSourceCONNECTING := by
  refine ⟨?_, ?_, by decide, by decide⟩
  · simp [getReadyState, hs, hh, webSocketCONNECTING]
  · simp [sseGetReadyState, ht, hg, eventSourceCONNECTING]

/-- C8 witness: both clients holding a handle in state `CONNECTING = 0`
report `CLOSED`. -/
theorem getReadyState_connecting_coerced_to_closed_witness :
    getReadyState { wsOpenDemo with websocket := some ⟨0, 0⟩ } = webSocketCLOSED ∧
    sseGetReadyState ⟨some ⟨0, 0⟩⟩ = eventSourceCLOSED ∧
    webSocketCLOSED ≠ webSocketCONNECTING ∧
    eventSourceCLOSED ≠ eventSourceCONNECTING :=
  getReadyState_connecting_coerced_to_closed
    { wsOpenDemo with websocket := some ⟨0, 0⟩ } ⟨0, 0⟩ ⟨some ⟨0, 0⟩⟩ ⟨0, 0⟩
    rfl rfl rfl rfl

/-! ## C6: disconnect() followed by connect() and stale retry timers -/

/-- C6 (counterexample).  One failed connection attempt fires both
`onerror` and `onclose`; each calls `handleRetry`, and the second call
overwrites `retryTimer` without clearing timer 0, which stays pending.
`disconnect()` then clears only the tracked timer 1, so after
`disconnect()` immediately followed by `connect()` the pre-disconnect
timer 0 is still armed — and when it fires, its callback runs `connect()`
and opens a fresh socket into the new cycle. -/
theorem stale_retry_timer_fires_into_new_cycle :
    c6Step2.2 = [WSEvent.onErrorCallback, WSEvent.retryScheduled 0 3000] ∧
    c6Step3.2 = [WSEvent.onCloseCallback, WSEvent.retryScheduled 1 6000] ∧
    c6Step4.2 = [WSEvent.timerCleared 1,
      WSEvent.socketClosed 1000 "Client disconnect"] ∧
    c6Step5.1.armedRetryTimers = [0] ∧
    c6Step7.2 = [WSEvent.socketCreated 2 "ws://h/ws"] := by
  refine ⟨?_, ?_, ?_, ?_, ?_⟩ <;>
    norm_num [c6Step7, c6Step6, c6Step5, c6Step4, c6Step3, c6Step2, c6Step1,
      connect, wsFresh, wsDemoConfig, isConnected, onErrorEvent, onCloseEvent,
      handleRetry, calculateRetryDelayWS, jsOrQ, min_def, stopHeartbeat,
      disconnect, retryTimerFire, buildConnectUrl, normalizeScheme,
      strStartsWith, charsStartWith, strDrop, webSocketCONNECTING] <;>
    rfl

/-- C6 (amended).  Provided at most one retry timer is pending and it is
the tracked one — the state the client is in unless two failure events
have invoked `handleRetry` back-to-back without the timer firing —
`disconnect()` cancels the pending retry timer and stops the heartbeat,
and no retry timer armed before the `disconnect()` is still pending after
an immediately following `connect()`; in general, a retry timer leaked by
consecutive `handleRetry` calls survives `disconnect()` and can fire into
the new connection cycle. -/
theorem disconnect_then_connect_no_stale_retry (s : WSClient) (ct : Bool) (r : ℚ)
    (hone : s.armedRetryTimers = [] ∨
      ∃ id, s.retryTimer = some id ∧ s.armedRetryTimers = [id])
    (hfresh : ∀ id ∈ s.armedRetryTimers, id < s.nextTimerId) :
    (disconnect s).1.retryTimer = none ∧
    (disconnect s).1.heartbeatTimer = none ∧
    (disconnect s).1.armedRetryTimers = [] ∧
    ∀ id ∈ s.armedRetryTimers,
      id ∉ (connect ct r (disconnect s).1).1.armedRetryTimers := by
  obtain ⟨ws, cfg, ra, rt, ic, hb, armed, nt, ns⟩ := s
  simp only at hone hfresh
  have hdis : (disconnect ⟨ws, cfg, ra, rt, ic, hb, armed, nt, ns⟩).1 =
      { websocket := none, config := cfg, retryAttempts := 0, retryTimer := none
        isConnecting := false, heartbeatTimer := none, armedRetryTimers := ([] : List ℕ)
        nextTimerId := nt, nextSockId := ns } := by
    rcases hone with h | ⟨id, hrt, harm⟩
    · subst h
      rcases rt with _ | tid <;> rcases hb with _ | hid <;> rcases ws with _ | wh <;>
        simp [disconnect, stopHeartbeat]
    · subst hrt; subst harm
      rcases hb with _ | hid <;> rcases ws with _ | wh <;>
        simp [disconnect, stopHeartbeat]
  refine ⟨by rw [hdis], by rw [hdis], by rw [hdis], ?_⟩
  intro id hid
  have hlt : id < nt := hfresh id hid
  rw [hdis]
  by_cases hct : ct
  · subst hct
    simp only [connect, isConnected, handleRetry]
    intro ha
    norm_num at ha
    split at ha
    · simp at ha
    · simp at ha
      omega
  · simp only [Bool.not_eq_true] at hct
    subst hct
    simp [connect, isConnected]

/-- C6 witness: the amended guarantee at a concrete client holding one
tracked pending retry timer and a heartbeat. -/
theorem disconnect_then_connect_no_stale_retry_witness :
    (disconnect { wsOpenDemo with retryTimer := some 5, armedRetryTimers := [5] }).1.retryTimer =
      none ∧
    (disconnect { wsOpenDemo with retryTimer := some 5, armedRetryTimers := [5] }).1.heartbeatTimer =
      none ∧
    (disconnect { wsOpenDemo with retryTimer := some 5, armedRetryTimers := [5] }).1.armedRetryTimers =
      [] ∧
    ∀ id ∈ ({ wsOpenDemo with retryTimer := some 5, armedRetryTimers := [5] } : WSClient).armedRetryTimers,
      id ∉ (connect false 0
        (disconnect { wsOpenDemo with retryTimer := some 5, armedRetryTimers := [5] }).1).1.armedRetryTimers :=
  disconnect_then_connect_no_stale_retry
    { wsOpenDemo with retryTimer := some 5, armedRetryTimers := [5] } false 0
    (Or.inr ⟨5, rfl, rfl⟩) (by decide)

/-! ## C7: updateSessionId on an Open client -/

/-- C7.  `updateSessionId` on a client whose socket is `Open` performs
exactly one socket close followed by exactly one connection attempt, and
the URL of that attempt is the configured URL with the new (non-empty)
session id appended as a path segment (URL-encoded), scheme-normalized. -/
theorem updateSessionId_open_one_disconnect_one_connect
    (s : WSClient) (h : WSHandle) (sid : String) (r : ℚ)
    (hws : s.websocket = some h) (hopen : h.readyState = 1) (hsid : sid ≠ "") :
    (updateSessionId sid false r s).2.filter isSocketOp =
      [WSEvent.socketClosed 1000 "Client disconnect",
       WSEvent.socketCreated s.nextSockId
         (normalizeScheme (s.config.url ++ "/" ++ encodeURIComponent sid))] := by
  obtain ⟨ws, cfg, ra, rt, ic, hb, armed, nt, ns⟩ := s
  obtain ⟨hid, hrs⟩ := h
  simp only at hws hopen ⊢
  subst hws
  subst hopen
  rcases rt with _ | tid <;> rcases hb with _ | hbid <;>
    simp [updateSessionId, disconnect, stopHeartbeat, connect, isConnected,
      buildConnectUrl, isSocketOp, hsid]

/-- C7 witness: updating the session id of the concrete open client to
`"s2"` closes socket 0 and attempts socket 1 at the rewritten URL carrying
`/s2`. -/
theorem updateSessionId_open_one_disconnect_one_connect_witness :
    (updateSessionId "s2" false 0 wsOpenDemo).2.filter isSocketOp =
      [WSEvent.socketClosed 1000 "Client disconnect",
       WSEvent.socketCreated 1
         (normalizeScheme ("http://h/ws" ++ "/" ++ encodeURIComponent "s2"))] :=
  updateSessionId_open_one_disconnect_one_connect wsOpenDemo ⟨0, 1⟩ "s2" 0
    rfl rfl (by decide)

/-! ## C9: monitor snapshots are copies -/

/-- C9.  `getMetrics()` and `getConnectionHistory()` return snapshot
copies at fresh references distinct from the monitor's internal objects;
overwriting a returned snapshot never changes the monitor's internal
metrics or history, and a subsequent `recordConnectionEvent` produces the
same internal state whether or not the snapshot was mutated. -/
theorem monitor_snapshots_are_copies (w : MonitorWorld) (now now2 : ℚ)
    (m2 : ConnectionMetrics) (h2 : List HistEvent) (k : EvKind) (b : Bool)
    (d : Option ℚ)
    (hwm : w.metricsRef < w.nextMetricsRef) (hwh : w.historyRef < w.nextHistoryRef) :
    (getMetrics now w).2 ≠ w.metricsRef ∧
    (getConnectionHistory w).2 ≠ w.historyRef ∧
    monitorInternals (writeMetricsAt (getMetrics now w).2 m2 (getMetrics now w).1) =
      monitorInternals (getMetrics now w).1 ∧
    monitorInternals (recordConnectionEvent now2 k b d
        (writeMetricsAt (getMetrics now w).2 m2 (getMetrics now w).1)) =
      monitorInternals (recordConnectionEvent now2 k b d (getMetrics now w).1) ∧
    monitorInternals (writeHistoryAt (getConnectionHistory w).2 h2 (getConnectionHistory w).1) =
      monitorInternals (getConnectionHistory w).1 ∧
    monitorInternals (recordConnectionEvent now2 k b d
        (writeHistoryAt (getConnectionHistory w).2 h2 (getConnectionHistory w).1)) =
      monitorInternals (recordConnectionEvent now2 k b d (getConnectionHistory w).1) := by
  have hne1 : w.metricsRef ≠ w.nextMetricsRef := Nat.ne_of_lt hwm
  have hne2 : w.historyRef ≠ w.nextHistoryRef := Nat.ne_of_lt hwh
  refine ⟨?_, ?_, ?_, ?_, ?_, ?_⟩ <;>
    simp [getMetrics, getConnectionHistory, updateMetricsInPlace, monitorInternals,
      writeMetricsAt, writeHistoryAt, recordConnectionEvent, hne1, hne2,
      hne1.symm, hne2.symm]

/-- C9 witness: the snapshot-isolation property at a freshly constructed
monitor world, mutating the metrics snapshot to a distinct value and the
history snapshot to a non-empty list before recording a connect event. -/
theorem monitor_snapshots_are_copies_witness :
    (getMetrics 1 demoMonitorWorld).2 ≠ demoMonitorWorld.metricsRef ∧
    (getConnectionHistory demoMonitorWorld).2 ≠ demoMonitorWorld.historyRef ∧
    monitorInternals (writeMetricsAt (getMetrics 1 demoMonitorWorld).2
        { initialConnectionMetrics with totalConnections := 99 }
        (getMetrics 1 demoMonitorWorld).1) =
      monitorInternals (getMetrics 1 demoMonitorWorld).1 ∧
    monitorInternals (recordConnectionEvent 2 EvKind.connect true none
        (writeMetricsAt (getMetrics 1 demoMonitorWorld).2
          { initialConnectionMetrics with totalConnections := 99 }
          (getMetrics 1 demoMonitorWorld).1)) =
      monitorInternals (recordConnectionEvent 2 EvKind.connect true none
        (getMetrics 1 demoMonitorWorld).1) ∧
    monitorInternals (writeHistoryAt (getConnectionHistory demoMonitorWorld).2
        [⟨1, EvKind.connect, true, none⟩]
        (getConnectionHistory demoMonitorWorld).1) =
      monitorInternals (getConnectionHistory demoMonitorWorld).1 ∧
    monitorInternals (recordConnectionEvent 2 EvKind.connect true none
        (writeHistoryAt (getConnectionHistory demoMonitorWorld).2
          [⟨1, EvKind.connect, true, none⟩]
          (getConnectionHistory demoMonitorWorld).1)) =
      monitorInternals (recordConnectionEvent 2 EvKind.connect true none
        (getConnectionHistory demoMonitorWorld).1) :=
  monitor_snapshots_are_copies demoMonitorWorld 1 2
    { initialConnectionMetrics with totalConnections := 99 }
    [⟨1, EvKind.connect, true, none⟩] EvKind.connect true none
    (by norm_num [demoMonitorWorld]) (by norm_num [demoMonitorWorld])

end XdPost
